import Mathlib

/-!
Shallow embedding of the velecs math library (Vec3, Vec4, Quat, Mat4) and
proofs about its transform and projection core.

Modelling conventions:
- C++ `float` values are modelled as real numbers; the finite float inputs of
  the claims are a subset of the rationals, which embed in the reals.
- Operations that throw a C++ exception are modelled as `Except String`
  values; operations with no error path are plain total functions.
- glm is column-major: `m[c][r]` is the entry in column `c`, row `r`.  A
  `Mat4` is therefore four columns `c0 c1 c2 c3`, each a `Vec4` whose
  fields `x y z w` are rows 0..3 of that column.
- The glm helper routines used by the sources (`glm::translate`,
  `glm::scale`, `glm::rotate`, the euler-angle `glm::quat` constructor,
  matrix and matrix-vector products) are external library code; they are
  reproduced here following glm's documented column-major definitions.
-/

noncomputable section

namespace velecs.math

/-- The constant PI from Consts.hpp, idealised as the real number pi. -/
def PI : ℝ := Real.pi

/-- Conversion factor degrees to radians, from Consts.hpp. -/
def DEG_TO_RAD : ℝ := PI / 180

/-- Conversion factor radians to degrees, from Consts.hpp. -/
def RAD_TO_DEG : ℝ := 180 / PI

/-- The Vec3 struct: three float components (Vec3.hpp). -/
structure Vec3 where
  x : ℝ
  y : ℝ
  z : ℝ

/-- The Vec4 struct: four float components (Vec4.hpp). -/
structure Vec4 where
  x : ℝ
  y : ℝ
  z : ℝ
  w : ℝ

namespace Vec3

/-- Free function `operator*(const Vec3 lhs, const float rhs)` from Vec3.hpp:
componentwise scaling. -/
def smul (v : Vec3) (s : ℝ) : Vec3 := ⟨v.x * s, v.y * s, v.z * s⟩

/-- Member `Vec3::operator/=(const float scalar)` (Vec3.hpp lines 198-204).
The source divides each component by the scalar with no zero check; the
mutated receiver is modelled as the returned value.  (In C++ float
arithmetic a zero scalar makes every component division produce a
non-finite Inf/NaN value; real division is total, so the function is
total here as in the source.) -/
def divAssign (v : Vec3) (s : ℝ) : Vec3 := ⟨v.x / s, v.y / s, v.z / s⟩

/-- Free function `operator/(const Vec3 lhs, const float rhs)` from Vec3.hpp
(lines 435-442): throws "Division by zero error" when the scalar is 0,
otherwise divides componentwise. -/
def divScalar (v : Vec3) (s : ℝ) : Except String Vec3 :=
  if s = 0 then Except.error "Division by zero error"
  else Except.ok ⟨v.x / s, v.y / s, v.z / s⟩

/-- Member `Vec3::operator[](int index)` (Vec3.hpp lines 212-218): if the
index is in 0..2 it returns the component at that offset from `&x`
(x, y, z in order); otherwise it throws std::out_of_range.  The returned
reference is modelled by its value. -/
def getAt (v : Vec3) (i : ℤ) : Except String ℝ :=
  if 0 ≤ i ∧ i < 3 then
    Except.ok (if i = 0 then v.x else if i = 1 then v.y else v.z)
  else Except.error "Vec3 index out of range"

end Vec3

namespace Vec4

/-- Free function `operator+(const Vec4 lhs, const Vec4 rhs)` from Vec4.hpp:
componentwise addition. -/
def add (a b : Vec4) : Vec4 := ⟨a.x + b.x, a.y + b.y, a.z + b.z, a.w + b.w⟩

/-- Free function `operator*(const Vec4 lhs, const float rhs)` from Vec4.hpp:
componentwise scaling. -/
def smul (v : Vec4) (s : ℝ) : Vec4 := ⟨v.x * s, v.y * s, v.z * s, v.w * s⟩

/-- Member `Vec4::operator/=(const float scalar)` (Vec4.hpp lines 256-263).
The source divides each component by the scalar with no zero check; the
mutated receiver is modelled as the returned value.  (In C++ float
arithmetic a zero scalar makes every component division produce a
non-finite Inf/NaN value; real division is total, so the function is
total here as in the source.) -/
def divAssign (v : Vec4) (s : ℝ) : Vec4 := ⟨v.x / s, v.y / s, v.z / s, v.w / s⟩

/-- Free function `operator/(const Vec4 lhs, const float rhs)` from Vec4.hpp
(lines 540-547): throws "Division by zero error" when the scalar is 0,
otherwise divides componentwise. -/
def divScalar (v : Vec4) (s : ℝ) : Except String Vec4 :=
  if s = 0 then Except.error "Division by zero error"
  else Except.ok ⟨v.x / s, v.y / s, v.z / s, v.w / s⟩

/-- Refinement reference for claim C6, following the claim's words rather
than the source: in-place scalar division that fails explicitly with an
arithmetic error signal when the scalar is 0, and otherwise returns the
componentwise quotient.  Compared against `Vec4.divAssign`, which is the
translation of the source. -/
def divAssignChecked (v : Vec4) (s : ℝ) : Except String Vec4 :=
  if s = 0 then Except.error "Division by zero error"
  else Except.ok ⟨v.x / s, v.y / s, v.z / s, v.w / s⟩

/-- Member `Vec4::operator[](int index)` (Vec4.hpp lines 265-270): if the
index is in 0..3 it returns the component at that offset from `&x`
(x, y, z, w in order); otherwise it throws std::out_of_range.  The
returned reference is modelled by its value. -/
def getAt (v : Vec4) (i : ℤ) : Except String ℝ :=
  if 0 ≤ i ∧ i < 4 then
    Except.ok (if i = 0 then v.x else if i = 1 then v.y else if i = 2 then v.z else v.w)
  else Except.error "Vec4 index out of range"

/-- Member `Vec4::ToVec3()` (Vec4.cpp lines 71-79): throws when w is exactly
zero, otherwise multiplies x, y, z by the reciprocal of w. -/
def ToVec3 (v : Vec4) : Except String Vec3 :=
  if v.w = 0 then
    Except.error "Cannot project a Vec4 with w=0 to Vec3 (division by zero)"
  else
    Except.ok ⟨v.x * (1 / v.w), v.y * (1 / v.w), v.z * (1 / v.w)⟩

/-- Member `Vec4::ToPoint()` (Vec4.cpp lines 86-97): if the absolute value
of w is below 1e-6 it returns the same spatial components with w set to 1;
otherwise it multiplies x, y, z by the reciprocal of w and sets w to 1. -/
def ToPoint (v : Vec4) : Vec4 :=
  if |v.w| < 1 / 1000000 then ⟨v.x, v.y, v.z, 1⟩
  else ⟨v.x * (1 / v.w), v.y * (1 / v.w), v.z * (1 / v.w), 1⟩

/-- Static `Vec4::Dot(const Vec4 a, const Vec4 b)` (Vec4.hpp lines 394-397):
the source sums only the products of the x, y and z components. -/
def Dot (a b : Vec4) : ℝ := a.x * b.x + a.y * b.y + a.z * b.z

/-- Static `Vec4::SpatialAngle(const Vec4 a, const Vec4 b)` (Vec4.cpp lines
155-171): dot product and magnitudes of the spatial components only; if
the product of the magnitudes is below 1e-6 it returns 0, otherwise the
arc cosine of the cosine clamped to [-1, 1]. -/
def SpatialAngle (a b : Vec4) : ℝ :=
  if Real.sqrt (a.x * a.x + a.y * a.y + a.z * a.z) *
      Real.sqrt (b.x * b.x + b.y * b.y + b.z * b.z) < 1 / 1000000 then 0
  else
    Real.arccos (max (-1) (min 1
      ((a.x * b.x + a.y * b.y + a.z * b.z) /
        (Real.sqrt (a.x * a.x + a.y * a.y + a.z * a.z) *
          Real.sqrt (b.x * b.x + b.y * b.y + b.z * b.z)))))

end Vec4

/-- The Quat struct (Quat.hpp): four float components in the game-engine
order x, y, z imaginary and w real.  The internal glm::quat stores
(w, x, y, z); the public contract is (x, y, z, w), which is what the
fields here record. -/
structure Quat where
  x : ℝ
  y : ℝ
  z : ℝ
  w : ℝ

/-- The euler-angle constructor `glm::quat(glm::vec3(x, y, z))` used by
Quat.cpp: glm builds the quaternion from the componentwise half-angle
cosines and sines of the pitch (x), yaw (y) and roll (z) angles. -/
def glmQuatFromEuler (ex ey ez : ℝ) : Quat :=
  let cx := Real.cos (ex * (1 / 2))
  let cy := Real.cos (ey * (1 / 2))
  let cz := Real.cos (ez * (1 / 2))
  let sx := Real.sin (ex * (1 / 2))
  let sy := Real.sin (ey * (1 / 2))
  let sz := Real.sin (ez * (1 / 2))
  ⟨sx * cy * cz - cx * sy * sz,
   cx * sy * cz + sx * cy * sz,
   cx * cy * sz - sx * sy * cz,
   cx * cy * cz + sx * sy * sz⟩

namespace Quat

/-- Static `Quat::FromEulerAngles(const Vec3& angles)` (Quat.cpp lines
41-45): converts the Vec3 to glm and invokes glm's euler-angle quaternion
constructor. -/
def FromEulerAngles (angles : Vec3) : Quat :=
  glmQuatFromEuler angles.x angles.y angles.z

/-- Static `Quat::FromEulerAnglesDeg(const Vec3& angles)` (Quat.cpp lines
57-61): scales the angle vector by DEG_TO_RAD and delegates to
`FromEulerAngles`. -/
def FromEulerAnglesDeg (angles : Vec3) : Quat :=
  FromEulerAngles (angles.smul DEG_TO_RAD)

end Quat

/-- The Mat4 struct (Mat4.hpp): wraps a column-major glm::mat4.  Fields are
the four columns; each column's x, y, z, w fields are rows 0..3. -/
structure Mat4 where
  c0 : Vec4
  c1 : Vec4
  c2 : Vec4
  c3 : Vec4

/-- The constructor `glm::mat4(d)`: d on the main diagonal, 0 elsewhere. -/
def mat4Diagonal (d : ℝ) : Mat4 :=
  ⟨⟨d, 0, 0, 0⟩, ⟨0, d, 0, 0⟩, ⟨0, 0, d, 0⟩, ⟨0, 0, 0, d⟩⟩

namespace Mat4

/-- glm's `operator*(mat4, vec4)`, also the velecs free function
`operator*(const Mat4& lhs, const Vec4& rhs)` (Mat4.hpp lines 356-359):
the linear combination of the columns by the vector's components, written
out row by row. -/
def mulVec (m : Mat4) (v : Vec4) : Vec4 :=
  ⟨m.c0.x * v.x + m.c1.x * v.y + m.c2.x * v.z + m.c3.x * v.w,
   m.c0.y * v.x + m.c1.y * v.y + m.c2.y * v.z + m.c3.y * v.w,
   m.c0.z * v.x + m.c1.z * v.y + m.c2.z * v.z + m.c3.z * v.w,
   m.c0.w * v.x + m.c1.w * v.y + m.c2.w * v.z + m.c3.w * v.w⟩

/-- glm's `operator*(mat4, mat4)`, also the velecs free function
`operator*(const Mat4& lhs, const Mat4& rhs)` (Mat4.hpp lines 346-349):
column c of the product is lhs applied to column c of rhs. -/
def mul (a b : Mat4) : Mat4 :=
  ⟨a.mulVec b.c0, a.mulVec b.c1, a.mulVec b.c2, a.mulVec b.c3⟩

end Mat4

/-- Modelled from the spec: `Quat::ToMatrix()` is declared in Quat.hpp
(line 94) but its definition is not among the sources; the spec says it
produces a pure-rotation 4x4 matrix (no translation, unit scale)
equivalent to rotating a vector by this quaternion.  This is the standard
rotation matrix of a unit quaternion (x, y, z, w), in column-major
layout with a (0, 0, 0, 1) last column and row. -/
def Quat.ToMatrix (q : Quat) : Mat4 :=
  ⟨⟨1 - 2 * (q.y * q.y + q.z * q.z), 2 * (q.x * q.y + q.w * q.z), 2 * (q.x * q.z - q.w * q.y), 0⟩,
   ⟨2 * (q.x * q.y - q.w * q.z), 1 - 2 * (q.x * q.x + q.z * q.z), 2 * (q.y * q.z + q.w * q.x), 0⟩,
   ⟨2 * (q.x * q.z + q.w * q.y), 2 * (q.y * q.z - q.w * q.x), 1 - 2 * (q.x * q.x + q.y * q.y), 0⟩,
   ⟨0, 0, 0, 1⟩⟩

/-- glm's `translate(mat4 m, vec3 v)`: the first three columns are copied
and the last column is the combination m.c0 * v.x + m.c1 * v.y +
m.c2 * v.z + m.c3. -/
def glmTranslate (m : Mat4) (v : Vec3) : Mat4 :=
  ⟨m.c0, m.c1, m.c2,
   ((((m.c0.smul v.x).add (m.c1.smul v.y)).add (m.c2.smul v.z)).add m.c3)⟩

/-- glm's `scale(mat4 m, vec3 v)`: the first three columns are scaled by the
corresponding component of v and the last column is copied. -/
def glmScale (m : Mat4) (v : Vec3) : Mat4 :=
  ⟨m.c0.smul v.x, m.c1.smul v.y, m.c2.smul v.z, m.c3⟩

/-- glm's `rotate(mat4 m, angle, vec3 v)`: normalises the axis, builds the
axis-angle 3x3 rotation entries from the angle's cosine and sine, and
combines the first three columns of m by those entries; the last column
is copied. -/
def glmRotate (m : Mat4) (angle : ℝ) (v : Vec3) : Mat4 :=
  let c := Real.cos angle
  let s := Real.sin angle
  let len := Real.sqrt (v.x * v.x + v.y * v.y + v.z * v.z)
  let ax := v.x / len
  let ay := v.y / len
  let az := v.z / len
  let t0 := (1 - c) * ax
  let t1 := (1 - c) * ay
  let t2 := (1 - c) * az
  ⟨((m.c0.smul (c + t0 * ax)).add ((m.c1.smul (t0 * ay + s * az)).add
      (m.c2.smul (t0 * az - s * ay)))),
   ((m.c0.smul (t1 * ax - s * az)).add ((m.c1.smul (c + t1 * ay)).add
      (m.c2.smul (t1 * az + s * ax)))),
   ((m.c0.smul (t2 * ax + s * ay)).add ((m.c1.smul (t2 * ay - s * ax)).add
      (m.c2.smul (c + t2 * az)))),
   m.c3⟩

namespace Mat4

/-- Static `Mat4::FromRotation(const Vec3& rotation)` (Mat4.cpp lines
49-52): euler angles to quaternion, then quaternion to matrix. -/
def FromRotation (rotation : Vec3) : Mat4 :=
  (Quat.FromEulerAngles rotation).ToMatrix

/-- Static `Mat4::FromRotationDeg(const Vec3& rotationDeg)` (Mat4.cpp lines
54-57): degree euler angles to quaternion, then quaternion to matrix. -/
def FromRotationDeg (rotationDeg : Vec3) : Mat4 :=
  (Quat.FromEulerAnglesDeg rotationDeg).ToMatrix

/-- Static `Mat4::FromPerspective` (Mat4.cpp lines 59-85): builds the
coordinate-flip matrix X (identity with the Y and Z diagonal entries
negated), the right-handed perspective matrix from the focal length and
the depth terms A and B, and returns their product perspective * X. -/
def FromPerspective (verticalFov aspect nearPlane farPlane : ℝ) : Mat4 :=
  let xFlip : Mat4 :=
    ⟨⟨1, 0, 0, 0⟩, ⟨0, -1, 0, 0⟩, ⟨0, 0, -1, 0⟩, ⟨0, 0, 0, 1⟩⟩
  let vFovRads := DEG_TO_RAD * verticalFov
  let focalLength := 1 / Real.tan (vFovRads * (1 / 2))
  let px := focalLength / aspect
  let py := focalLength
  let A := farPlane / (farPlane - nearPlane)
  let B := -nearPlane * A
  let perspectiveMatrix : Mat4 :=
    ⟨⟨px, 0, 0, 0⟩, ⟨0, py, 0, 0⟩, ⟨0, 0, A, 1⟩, ⟨0, 0, B, 0⟩⟩
  perspectiveMatrix.mul xFlip

/-- Static `Mat4::FromOrthographic(left, right, bottom, top, nearPlane,
farPlane)` (Mat4.cpp lines 87-116): per-axis scales and translations into
the [0,1] depth box, then the product ortho * X with the same
coordinate-flip matrix X as the perspective path. -/
def FromOrthographic6 (left right bottom top nearPlane farPlane : ℝ) : Mat4 :=
  let xFlip : Mat4 :=
    ⟨⟨1, 0, 0, 0⟩, ⟨0, -1, 0, 0⟩, ⟨0, 0, -1, 0⟩, ⟨0, 0, 0, 1⟩⟩
  let scaleX := 2 / (right - left)
  let scaleY := 2 / (top - bottom)
  let scaleZ := 1 / (farPlane - nearPlane)
  let transX := -(right + left) / (right - left)
  let transY := -(top + bottom) / (top - bottom)
  let transZ := -nearPlane / (farPlane - nearPlane)
  let orthoMatrix : Mat4 :=
    ⟨⟨scaleX, 0, 0, 0⟩, ⟨0, scaleY, 0, 0⟩, ⟨0, 0, scaleZ, 0⟩,
     ⟨transX, transY, transZ, 1⟩⟩
  orthoMatrix.mul xFlip

/-- Static inline `Mat4::FromOrthographic(width, height, nearPlane,
farPlane)` (Mat4.hpp lines 122-125): delegates to the six-argument
overload with the symmetric box bounds. -/
def FromOrthographic4 (width height nearPlane farPlane : ℝ) : Mat4 :=
  FromOrthographic6 (-width / 2) (width / 2) (-height / 2) (height / 2)
    nearPlane farPlane

/-- Member `Mat4::WithTranslation(const Vec3&)` (Mat4.cpp lines 166-169):
`glm::translate` applied to the receiver; const, returns a new matrix. -/
def WithTranslation (m : Mat4) (displacement : Vec3) : Mat4 :=
  glmTranslate m displacement

/-- Member `Mat4::WithScale(const Vec3&)` (Mat4.cpp lines 171-174):
`glm::scale` applied to the receiver; const, returns a new matrix. -/
def WithScale (m : Mat4) (scale : Vec3) : Mat4 :=
  glmScale m scale

/-- Member `Mat4::WithRotation(const float angle, const Vec3& axis)`
(Mat4.cpp lines 176-179): `glm::rotate` applied to the receiver. -/
def WithRotationAngleAxis (m : Mat4) (angle : ℝ) (axis : Vec3) : Mat4 :=
  glmRotate m angle axis

/-- Inline member `Mat4::WithRotationDeg(const float angleDeg, const Vec3&
axis)` (Mat4.hpp lines 230-233): converts degrees to radians and
delegates to the radian overload. -/
def WithRotationDegAngleAxis (m : Mat4) (angleDeg : ℝ) (axis : Vec3) : Mat4 :=
  WithRotationAngleAxis m (angleDeg * DEG_TO_RAD) axis

/-- Member `Mat4::WithRotation(const Vec3& eulerAngles)` (Mat4.cpp lines
181-184): the receiver times the euler-angle rotation matrix obtained
through the quaternion route. -/
def WithRotationEuler (m : Mat4) (eulerAngles : Vec3) : Mat4 :=
  m.mul (Quat.FromEulerAngles eulerAngles).ToMatrix

/-- Member `Mat4::WithRotationDeg(const Vec3& eulerAnglesDeg)` (Mat4.cpp
lines 186-189): the receiver times the degree euler-angle rotation matrix
obtained through the quaternion route. -/
def WithRotationDegEuler (m : Mat4) (eulerAnglesDeg : Vec3) : Mat4 :=
  m.mul (Quat.FromEulerAnglesDeg eulerAnglesDeg).ToMatrix

/-- Member `Mat4::WithRotation(const Quat& rotation)` (Mat4.cpp lines
191-194): the receiver times the quaternion's rotation matrix. -/
def WithRotationQuat (m : Mat4) (rotation : Quat) : Mat4 :=
  m.mul rotation.ToMatrix

/-- Mutating member `Mat4::Translate` (Mat4.cpp lines 124-128): assigns
`WithTranslation` of the receiver back to the receiver.  The receiver
state after the call is modelled as the returned value. -/
def Translate (m : Mat4) (displacement : Vec3) : Mat4 :=
  WithTranslation m displacement

/-- Mutating member `Mat4::Scale` (Mat4.cpp lines 130-134): assigns
`WithScale` of the receiver back to the receiver. -/
def Scale (m : Mat4) (scale : Vec3) : Mat4 :=
  WithScale m scale

/-- Mutating member `Mat4::Rotate(const float, const Vec3&)` (Mat4.cpp
lines 136-140): assigns `WithRotation` of the receiver back to it. -/
def RotateAngleAxis (m : Mat4) (angle : ℝ) (axis : Vec3) : Mat4 :=
  WithRotationAngleAxis m angle axis

/-- Mutating member `Mat4::RotateDeg(const float, const Vec3&)` (Mat4.cpp
lines 142-146): assigns `WithRotationDeg` of the receiver back to it. -/
def RotateDegAngleAxis (m : Mat4) (angleDeg : ℝ) (axis : Vec3) : Mat4 :=
  WithRotationDegAngleAxis m angleDeg axis

/-- Mutating member `Mat4::Rotate(const Vec3&)` (Mat4.cpp lines 148-152):
assigns `WithRotation` of the receiver back to it. -/
def RotateEuler (m : Mat4) (eulerAngles : Vec3) : Mat4 :=
  WithRotationEuler m eulerAngles

/-- Mutating member `Mat4::RotateDeg(const Vec3&)` (Mat4.cpp lines
154-158): assigns `WithRotationDeg` of the receiver back to it. -/
def RotateDegEuler (m : Mat4) (eulerAnglesDeg : Vec3) : Mat4 :=
  WithRotationDegEuler m eulerAnglesDeg

/-- Mutating member `Mat4::Rotate(const Quat&)` (Mat4.cpp lines 160-164):
assigns `WithRotation` of the receiver back to it. -/
def RotateQuat (m : Mat4) (quat : Quat) : Mat4 :=
  WithRotationQuat m quat

end Mat4

/-- Claim C2: for every euler-angle vector e, `Mat4::FromRotation(e)` equals
`Quat::FromEulerAngles(e).ToMatrix()` and `Mat4::FromRotationDeg(e)` equals
`Quat::FromEulerAnglesDeg(e).ToMatrix()`; the rotation matrix is obtained
by converting the euler angles to a quaternion and then to a matrix, with
no separate direct euler-to-matrix code path. -/
theorem fromRotation_is_quaternion_route (e : Vec3) :
    Mat4.FromRotation e = (Quat.FromEulerAngles e).ToMatrix ∧
    Mat4.FromRotationDeg e = (Quat.FromEulerAnglesDeg e).ToMatrix :=
  ⟨rfl, rfl⟩

/-- Claim C3: each mutating builder leaves the receiver in exactly the state
that its non-mutating counterpart would have returned on the original
matrix, for every overload: Translate vs WithTranslation, Scale vs
WithScale, Rotate vs WithRotation (angle-axis, euler and quaternion
overloads) and RotateDeg vs WithRotationDeg (angle-axis and euler
overloads).  The With- variants are const members, modelled as pure
functions of the receiver, so they leave the receiver unchanged by
construction. -/
theorem mutating_builders_match_with_variants (m : Mat4) (d s : Vec3)
    (angle angleDeg : ℝ) (axis e eDeg : Vec3) (q : Quat) :
    Mat4.Translate m d = Mat4.WithTranslation m d ∧
    Mat4.Scale m s = Mat4.WithScale m s ∧
    Mat4.RotateAngleAxis m angle axis = Mat4.WithRotationAngleAxis m angle axis ∧
    Mat4.RotateDegAngleAxis m angleDeg axis = Mat4.WithRotationDegAngleAxis m angleDeg axis ∧
    Mat4.RotateEuler m e = Mat4.WithRotationEuler m e ∧
    Mat4.RotateDegEuler m eDeg = Mat4.WithRotationDegEuler m eDeg ∧
    Mat4.RotateQuat m q = Mat4.WithRotationQuat m q :=
  ⟨rfl, rfl, rfl, rfl, rfl, rfl, rfl⟩

/-- Claim C7: the symmetric-box overload of `Mat4::FromOrthographic` with a
width, a height and the two planes returns exactly the matrix of the
six-argument overload called with the bounds -width/2, width/2, -height/2,
height/2 and the same planes; it has no independent implementation path. -/
theorem orthographic_symmetric_overload (width height nearPlane farPlane : ℝ) :
    Mat4.FromOrthographic4 width height nearPlane farPlane =
      Mat4.FromOrthographic6 (-width / 2) (width / 2) (-height / 2) (height / 2)
        nearPlane farPlane :=
  rfl

/-- Claim C10: `Vec4::Dot(a, b)` returns only the sum a.x*b.x + a.y*b.y +
a.z*b.z, and is therefore independent of the w components of both
arguments: replacing the w components by arbitrary values leaves the
result unchanged. -/
theorem dot_ignores_w (a b : Vec4) (c d : ℝ) :
    Vec4.Dot a b = a.x * b.x + a.y * b.y + a.z * b.z ∧
    Vec4.Dot ⟨a.x, a.y, a.z, c⟩ ⟨b.x, b.y, b.z, d⟩ = Vec4.Dot a b :=
  ⟨rfl, rfl⟩

/-- Claim C4: for every Vec4 v, `ToPoint` returns the components unchanged
with w set to 1 when |w| is below 1e-6, and the perspective divide
(x/w, y/w, z/w, 1) otherwise; in both cases the result has w exactly 1,
and the operation is total (it never fails). -/
theorem toPoint_threshold_and_divide (v : Vec4) :
    v.ToPoint = (if |v.w| < 1 / 1000000 then Vec4.mk v.x v.y v.z 1
      else Vec4.mk (v.x / v.w) (v.y / v.w) (v.z / v.w) 1) ∧
    v.ToPoint.w = 1 := by
  unfold Vec4.ToPoint
  constructor
  · split <;> simp [div_eq_mul_inv]
  · split <;> rfl

/-- Claim C5: `Vec4::ToVec3` signals a division-by-zero error exactly when
w equals 0; for every Vec4 with nonzero w it returns the Vec3
(x/w, y/w, z/w) without failing.  The policy is strict on w = 0, unlike
the lenient near-zero threshold of `ToPoint`. -/
theorem toVec3_strict_error_policy (v : Vec4) :
    v.ToVec3 = (if v.w = 0 then
        Except.error "Cannot project a Vec4 with w=0 to Vec3 (division by zero)"
      else Except.ok (Vec3.mk (v.x / v.w) (v.y / v.w) (v.z / v.w))) ∧
    ((∃ u, v.ToVec3 = Except.ok u) ↔ v.w ≠ 0) := by
  unfold Vec4.ToVec3
  constructor
  · split <;> simp [div_eq_mul_inv]
  · constructor
    · rintro ⟨u, hu⟩ hw
      rw [if_pos hw] at hu
      exact Except.noConfusion hu
    · intro hw
      exact ⟨_, if_neg hw⟩

/-- Claim C6 counterexample: at the concrete vector (1, 2, 3, 4) and the
scalar 0, the source in-place division `operator/=` completes and returns
a componentwise-divided vector (no error is signalled; in C++ float
arithmetic its components are non-finite), while the claim requires it to
fail with an arithmetic error signal, as `divAssignChecked` - written
from the claim's words - does. -/
theorem divAssign_zero_scalar_signals_no_error :
    Except.ok (Vec4.divAssign ⟨1, 2, 3, 4⟩ 0) ≠
      Vec4.divAssignChecked ⟨1, 2, 3, 4⟩ 0 := by
  unfold Vec4.divAssign Vec4.divAssignChecked
  simp

/-- Claim C6 amended: the copy-returning scalar division `operator/` of
Vec3 and Vec4 fails explicitly with the arithmetic error signal
"Division by zero error" exactly when the scalar is 0 and returns the
componentwise quotient otherwise, whereas the in-place `operator/=`
performs no zero check and unconditionally returns the componentwise
quotient (with a zero scalar, C++ float arithmetic silently produces
non-finite Inf/NaN components instead of an error signal). -/
theorem scalar_division_error_policy (v : Vec4) (u : Vec3) (s : ℝ) :
    Vec4.divScalar v s = (if s = 0 then Except.error "Division by zero error"
      else Except.ok (Vec4.mk (v.x / s) (v.y / s) (v.z / s) (v.w / s))) ∧
    Vec4.divAssign v s = Vec4.mk (v.x / s) (v.y / s) (v.z / s) (v.w / s) ∧
    Vec3.divScalar u s = (if s = 0 then Except.error "Division by zero error"
      else Except.ok (Vec3.mk (u.x / s) (u.y / s) (u.z / s))) ∧
    Vec3.divAssign u s = Vec3.mk (u.x / s) (u.y / s) (u.z / s) :=
  ⟨rfl, rfl, rfl, rfl⟩

/-- Claim C8: indexed component access on Vec4 and Vec3 succeeds exactly
when the index is inside 0..N-1 (N = 4 for Vec4, N = 3 for Vec3), fails
with the std::out_of_range bounds-violation signal exactly when it is
outside, and the in-range indices return the components x, y, z, w in
order. -/
theorem index_access_bounds_policy (v : Vec4) (u : Vec3) (i : ℤ) :
    ((∃ r, v.getAt i = Except.ok r) ↔ (0 ≤ i ∧ i < 4)) ∧
    ((v.getAt i = Except.error "Vec4 index out of range") ↔ ¬(0 ≤ i ∧ i < 4)) ∧
    v.getAt 0 = Except.ok v.x ∧ v.getAt 1 = Except.ok v.y ∧
    v.getAt 2 = Except.ok v.z ∧ v.getAt 3 = Except.ok v.w ∧
    ((∃ r, u.getAt i = Except.ok r) ↔ (0 ≤ i ∧ i < 3)) ∧
    ((u.getAt i = Except.error "Vec3 index out of range") ↔ ¬(0 ≤ i ∧ i < 3)) ∧
    u.getAt 0 = Except.ok u.x ∧ u.getAt 1 = Except.ok u.y ∧
    u.getAt 2 = Except.ok u.z := by
  unfold Vec4.getAt Vec3.getAt
  refine ⟨?_, ?_, by norm_num, by norm_num, by norm_num, by norm_num, ?_, ?_,
    by norm_num, by norm_num, by norm_num⟩
  · constructor
    · rintro ⟨r, hr⟩
      by_contra hout
      rw [if_neg hout] at hr
      exact Except.noConfusion hr
    · intro hin
      exact ⟨_, if_pos hin⟩
  · constructor
    · intro herr
      intro hin
      rw [if_pos hin] at herr
      exact Except.noConfusion herr
    · intro hout
      exact if_neg hout
  · constructor
    · rintro ⟨r, hr⟩
      by_contra hout
      rw [if_neg hout] at hr
      exact Except.noConfusion hr
    · intro hin
      exact ⟨_, if_pos hin⟩
  · constructor
    · intro herr
      intro hin
      rw [if_pos hin] at herr
      exact Except.noConfusion herr
    · intro hout
      exact if_neg hout

/-- Claim C9: `Vec4::SpatialAngle(a, b)` ignores the w components (replacing
them with arbitrary values leaves the result unchanged), returns 0 when
either spatial magnitude is zero, and otherwise branches on the product
of the spatial magnitudes: below the 1e-6 guard it returns 0, else the
arc cosine of the spatial cosine clamped to [-1, 1]; the result always
lies in [0, pi], so it is never NaN for finite inputs. -/
theorem spatialAngle_ignores_w_clamped (a b : Vec4) (c d : ℝ) :
    Vec4.SpatialAngle a b =
      Vec4.SpatialAngle ⟨a.x, a.y, a.z, c⟩ ⟨b.x, b.y, b.z, d⟩ ∧
    Vec4.SpatialAngle ⟨0, 0, 0, c⟩ b = 0 ∧
    Vec4.SpatialAngle a ⟨0, 0, 0, d⟩ = 0 ∧
    Vec4.SpatialAngle a b =
      (if Real.sqrt (a.x * a.x + a.y * a.y + a.z * a.z) *
          Real.sqrt (b.x * b.x + b.y * b.y + b.z * b.z) < 1 / 1000000 then 0
        else Real.arccos (max (-1) (min 1
          ((a.x * b.x + a.y * b.y + a.z * b.z) /
            (Real.sqrt (a.x * a.x + a.y * a.y + a.z * a.z) *
              Real.sqrt (b.x * b.x + b.y * b.y + b.z * b.z)))))) ∧
    0 ≤ Vec4.SpatialAngle a b ∧ Vec4.SpatialAngle a b ≤ Real.pi := by
  refine ⟨rfl, ?_, ?_, rfl, ?_, ?_⟩
  · simp [Vec4.SpatialAngle]
  · simp [Vec4.SpatialAngle]
  · unfold Vec4.SpatialAngle
    split
    · exact le_refl 0
    · exact Real.arccos_nonneg _
  · unfold Vec4.SpatialAngle
    split
    · exact Real.pi_nonneg
    · exact Real.arccos_le_pi _

/-- Claim C1: the perspective matrix built by `Mat4::FromPerspective` with a
vertical field of view of 90 degrees, aspect 1, near plane 0.1 and far
plane 100, applied to the homogeneous point (0, 0, -0.1, 1), yields a
clip-space vector whose depth (z) component divided by its w component is
0: the near plane maps to depth 0. -/
theorem perspective_near_plane_maps_to_depth_zero :
    ((Mat4.FromPerspective 90 1 (1 / 10) 100).mulVec ⟨0, 0, -(1 / 10), 1⟩).z /
      ((Mat4.FromPerspective 90 1 (1 / 10) 100).mulVec ⟨0, 0, -(1 / 10), 1⟩).w
      = 0 := by
  simp only [Mat4.FromPerspective, Mat4.mul, Mat4.mulVec]
  norm_num

end velecs.math
